import Mathlib

/-!
Cdaprod/protomanager: task runner, event bus, signal loop, registration workflow

A shallow embedding of

* `protomanager/cluster/cluster.go` (`ClusterManager`, `AddTask`, `RunTasks`),
* `protomanager/protomanager.go` (`AddEventListener`, `emitEvent`,
  `RegisterMicroservice`, `updateGlobalProto`, `GenerateProtoCode`,
  `SignalHandler.ListenForSignal`).

Conventions of the embedding:

* a Go `error` is `Option String`: `none` is `nil`, `some m` is an error whose
  `Error()` text is `m`;
* a Go `string` is a `String`, `+` is `++`, `fmt.Sprintf` with `%s`/`%v`
  verbs is the concatenation of the format pieces and the arguments;
* goroutines started by one call are modelled by an explicit schedule (the
  order in which their bodies run) or by the list of calls that were started.
-/

set_option autoImplicit false

namespace Cluster

/-! ## `cluster.go` -/

/-- A `Task[T]` with a deterministic outcome: what `Execute()` returns, a value
together with an optional error. -/
structure Task (T : Type) where
  value : T
  err : Option String

/-- The Go method `Execute() (T, error)`. -/
def Task.Execute {T : Type} (t : Task T) : T × Option String :=
  (t.value, t.err)

/-- The struct `ClusterManager[T]`: the slice of pending tasks (the mutex has no
content of its own). -/
structure ClusterManager (T : Type) where
  tasks : List (Task T)

/-- The constructor `NewClusterManager`: `&ClusterManager[T]{}`. -/
def NewClusterManager {T : Type} : ClusterManager T :=
  { tasks := [] }

/-- The method `AddTask`: `cm.tasks = append(cm.tasks, task)`. -/
def ClusterManager.AddTask {T : Type} (cm : ClusterManager T) (task : Task T) :
    ClusterManager T :=
  { cm with tasks := cm.tasks ++ [task] }

/-- The two slices the goroutines of `RunTasks` write into. -/
structure Slots (T : Type) where
  results : List T
  errors : List (Option String)

/-- Body of the goroutine started for index `i`:
`result, err := task.Execute(); results[i] = result; errors[i] = err`.
An index without a task starts no goroutine. -/
def goroutine {T : Type} (tasks : List (Task T)) (s : Slots T) (i : Nat) : Slots T :=
  match tasks[i]? with
  | some task =>
      let r := task.Execute
      { results := s.results.set i r.1, errors := s.errors.set i r.2 }
  | none => s

/-- The goroutine bodies run one after the other in the order `sched` (the
completion order); `wg.Wait()` returns when all of them are done. -/
def runGoroutines {T : Type} (tasks : List (Task T)) (sched : List Nat) (s : Slots T) :
    Slots T :=
  sched.foldl (goroutine tasks) s

/-- The loop `for _, err := range errors { if err != nil { aggErr += err.Error() + "; " } }`
started from the accumulator `acc`. -/
def aggregate (errors : List (Option String)) (acc : String) : String :=
  errors.foldl
    (fun aggErr err =>
      match err with
      | some m => aggErr ++ (m ++ "; ")
      | none => aggErr)
    acc

/-- The method `RunTasks`. `zero` is the zero value of `T` (the content of
`make([]T, n)`), `sched` the order in which the goroutines complete. -/
def ClusterManager.RunTasks {T : Type} (zero : T) (cm : ClusterManager T)
    (sched : List Nat) : List T × Option String :=
  let results := List.replicate cm.tasks.length zero
  let errors : List (Option String) := List.replicate cm.tasks.length none
  let s := runGoroutines cm.tasks sched { results := results, errors := errors }
  let aggErr := aggregate s.errors ""
  if aggErr ≠ "" then
    (s.results, some ("errors occurred: " ++ aggErr))
  else
    (s.results, none)

/-- A manager built by `NewClusterManager` followed by one `AddTask` per element
of `ts`, in order. -/
def submit {T : Type} (ts : List (Task T)) : ClusterManager T :=
  ts.foldl ClusterManager.AddTask NewClusterManager

/-- A complete schedule for `n` goroutines: every index `0..n-1` exactly once,
in any order. -/
def Schedule (n : Nat) (sched : List Nat) : Prop :=
  sched.Perm (List.range n)

instance (n : Nat) (sched : List Nat) : Decidable (Schedule n sched) := by
  unfold Schedule; infer_instance

/-- The method `RunTasks` as a step of the manager: the manager after the call
together with what the call returns. No statement of `RunTasks` assigns
`cm.tasks`, so the manager comes back as it was. -/
def ClusterManager.RunTasksStep {T : Type} (zero : T) (cm : ClusterManager T)
    (sched : List Nat) : ClusterManager T × (List T × Option String) :=
  (cm, cm.RunTasks zero sched)

/-- The indices whose goroutine called `task.Execute()` during a run, in
completion order: a goroutine exists only for an index that holds a task. -/
def executions {T : Type} (tasks : List (Task T)) (sched : List Nat) : List Nat :=
  sched.filter (fun i => (tasks[i]?).isSome)

end Cluster

namespace Proto

/-! ## `protomanager.go`: events and listeners -/

/-- The struct `Event` (`Type_` stands for the Go field `Type`). -/
structure Event where
  Type_ : String
  Message : String
deriving DecidableEq

/-- The struct `ServiceMetadata`. -/
structure ServiceMetadata where
  Domain : String
  Version : String
deriving DecidableEq

/-- The struct `ProtoManager`, without its logger, registry and mutexes; `L` is
the type of listeners (`EventListener` values). -/
structure ProtoManager (L : Type) where
  GlobalProtoPath : String
  MicroserviceProtoDir : String
  OutputDir : String
  eventListeners : List L

/-- One call of `emitEvent`: the event, and the listeners for which
`go listener(event)` was started (one goroutine per entry). -/
structure Emission (L : Type) where
  event : Event
  invoked : List L
deriving DecidableEq

/-- The manager together with everything its methods act on: the content of the
file at `GlobalProtoPath`, the record of `emitEvent` calls, the lines handed to
the logger, and the command lines run through `exec.Command`. -/
structure World (L : Type) where
  pm : ProtoManager L
  globalProto : String
  emissions : List (Emission L)
  logs : List String
  commands : List (List String)

/-- The constructor `NewProtoManager`: the given paths and
`eventListeners: []EventListener{}`; `globalProto` is the content of the file
at `globalProtoPath`. -/
def NewProtoManager (L : Type) (globalProtoPath microserviceProtoDir outputDir : String)
    (globalProto : String) : World L :=
  { pm :=
      { GlobalProtoPath := globalProtoPath
        MicroserviceProtoDir := microserviceProtoDir
        OutputDir := outputDir
        eventListeners := [] }
    globalProto := globalProto
    emissions := []
    logs := []
    commands := [] }

/-- The method `AddEventListener`:
`pm.eventListeners = append(pm.eventListeners, listener)`. -/
def AddEventListener {L : Type} (w : World L) (listener : L) : World L :=
  { w with pm := { w.pm with eventListeners := w.pm.eventListeners ++ [listener] } }

/-- The method `emitEvent`: copy the listener slice, then start
`go listener(event)` for every listener of the copy. -/
def emitEvent {L : Type} (w : World L) (event : Event) : World L :=
  let listeners := w.pm.eventListeners
  { w with emissions := w.emissions ++ [{ event := event, invoked := listeners }] }

/-- A call of the logger (`Infof`, `Errorf`, `Info`) with the formatted line. -/
def logLine {L : Type} (w : World L) (line : String) : World L :=
  { w with logs := w.logs ++ [line] }

/-- A call made on the event bus by a client. -/
inductive BusCall (L : Type) where
  | add (listener : L)
  | emit (event : Event)
deriving DecidableEq

/-- One bus call applied to the world. -/
def busStep {L : Type} (w : World L) : BusCall L → World L
  | .add listener => AddEventListener w listener
  | .emit event => emitEvent w event

/-- A finite sequence of bus calls, applied in order (the listener mutex
serialises the accesses to the listener slice). -/
def runBus {L : Type} (w : World L) (calls : List (BusCall L)) : World L :=
  calls.foldl busStep w

/-- The listeners added by a sequence of bus calls, in order of addition. -/
def addedBy {L : Type} : List (BusCall L) → List L
  | [] => []
  | .add listener :: rest => listener :: addedBy rest
  | .emit _ :: rest => addedBy rest

/-- The events emitted by a sequence of bus calls, in order of emission. -/
def emittedBy {L : Type} : List (BusCall L) → List Event
  | [] => []
  | .add _ :: rest => emittedBy rest
  | .emit event :: rest => event :: emittedBy rest

/-! ## `protomanager.go`: the signal loop -/

/-- The values of `os.Signal` the loop distinguishes; `other` is any signal that
matches no `case` of the `switch`. -/
inductive Signal where
  | SIGINT
  | SIGTERM
  | SIGHUP
  | other (n : Nat)
deriving DecidableEq

/-- What a run of `ListenForSignal` did: the strings sent on `ActionCh`, in
order; whether the function returned; the signals it never read. -/
structure LoopOutcome where
  actions : List String
  returned : Bool
  unread : List Signal
deriving DecidableEq

/-- The method `ListenForSignal` on the signals received from `SignalCh`, in
order, with a consumer that drains `ActionCh` (no send blocks for ever). When
the signals are exhausted the loop is blocked in `select`: it has not returned. -/
def ListenForSignal : List Signal → LoopOutcome
  | [] => { actions := [], returned := false, unread := [] }
  | sig :: rest =>
    match sig with
    | .SIGINT | .SIGTERM =>
        { actions := ["shutdown"], returned := true, unread := rest }
    | .SIGHUP =>
        let r := ListenForSignal rest
        { r with actions := "reload" :: r.actions }
    | .other _ => ListenForSignal rest

/-- A termination-class signal: `SIGINT` or `SIGTERM`. -/
def Signal.isTermination : Signal → Bool
  | .SIGINT => true
  | .SIGTERM => true
  | _ => false

/-! ## `protomanager.go`: the registration workflow -/

/-- The outcomes of the collaborators of `RegisterMicroservice`.

* `RegisterService`: the error returned by `pm.ProtoRegistry.RegisterService`;
* `OpenFile`: the error of `os.OpenFile(path, os.O_APPEND|os.O_WRONLY, 0644)`;
* `WriteString`: `none` when `file.WriteString(data)` wrote all of `data`,
  `some (n, e)` when it failed with error `e` after writing `n` characters;
* `CombinedOutput`: the combined output and the error of running the command. -/
structure Env where
  RegisterService : String → ServiceMetadata → Option String
  OpenFile : String → Option String
  WriteString : String → Option (Nat × String)
  CombinedOutput : List String → String × Option String

/-- The stub built by `fmt.Sprintf` in `updateGlobalProto`. -/
def serviceDefinition (serviceName : String) : String :=
  "\nservice " ++ serviceName ++ "Service \x7b\n" ++
  "  rpc ExampleRPC (ExampleRequest) returns (ExampleResponse) \x7b\x7d\n" ++
  "\x7d\n" ++
  "\n" ++
  "message ExampleRequest \x7b\n" ++
  "  string message = 1;\n" ++
  "\x7d\n" ++
  "\n" ++
  "message ExampleResponse \x7b\n" ++
  "  string message = 1;\n" ++
  "\x7d\n"

/-- The method `updateGlobalProto`. -/
def updateGlobalProto {L : Type} (env : Env) (w : World L) (serviceName : String)
    (_metadata : ServiceMetadata) : World L × Option String :=
  let w := logLine w ("Updating global proto file for service '" ++ serviceName ++ "'")
  let serviceDefinition := serviceDefinition serviceName
  match env.OpenFile w.pm.GlobalProtoPath with
  | some err =>
      let w := logLine w ("Failed to open global proto file: " ++ err)
      let w := emitEvent w
        { Type_ := "Error", Message := "Failed to open global proto file: " ++ err }
      (w, some err)
  | none =>
      match env.WriteString serviceDefinition with
      | some (n, err) =>
          let w := { w with globalProto := w.globalProto ++ serviceDefinition.take n }
          let w := logLine w ("Failed to write to global proto file: " ++ err)
          let w := emitEvent w
            { Type_ := "Error", Message := "Failed to write to global proto file: " ++ err }
          (w, some err)
      | none =>
          let w := { w with globalProto := w.globalProto ++ serviceDefinition }
          let w := logLine w ("Global proto file updated for service '" ++ serviceName ++ "'")
          let w := emitEvent w
            { Type_ := "GlobalProtoUpdated",
              Message := "Global proto updated for service '" ++ serviceName ++ "'" }
          (w, none)

/-- The command line built by `exec.Command` in `GenerateProtoCode`. -/
def protocCommand {L : Type} (pm : ProtoManager L) : List String :=
  ["protoc",
   "--go_out=" ++ pm.OutputDir,
   "--go-grpc_out=" ++ pm.OutputDir,
   "--proto_path=" ++ pm.MicroserviceProtoDir,
   pm.GlobalProtoPath]

/-- The method `GenerateProtoCode`. -/
def GenerateProtoCode {L : Type} (env : Env) (w : World L) : World L × Option String :=
  let w := logLine w "Regenerating code from proto files..."
  let cmd := protocCommand w.pm
  let w := { w with commands := w.commands ++ [cmd] }
  match env.CombinedOutput cmd with
  | (output, some err) =>
      let w := logLine w ("Failed to regenerate code: " ++ err ++ "\nOutput: " ++ output)
      let w := emitEvent w
        { Type_ := "Error", Message := "Failed to regenerate code: " ++ err }
      (w, some err)
  | (output, none) =>
      let w := logLine w ("Code regenerated successfully. Output: " ++ output)
      let w := emitEvent w
        { Type_ := "CodeGenerated", Message := "Code regenerated successfully" }
      (w, none)

/-- The method `RegisterMicroservice`. -/
def RegisterMicroservice {L : Type} (env : Env) (w : World L)
    (serviceName domain version : String) : World L × Option String :=
  let metadata : ServiceMetadata := { Domain := domain, Version := version }
  match env.RegisterService serviceName metadata with
  | some err =>
      let w := logLine w ("Failed to register service '" ++ serviceName ++ "': " ++ err)
      let w := emitEvent w
        { Type_ := "Error",
          Message := "Failed to register service '" ++ serviceName ++ "': " ++ err }
      (w, some err)
  | none =>
      let w := logLine w ("Successfully registered service '" ++ serviceName ++ "'")
      let w := emitEvent w
        { Type_ := "ServiceRegistered",
          Message := "Service '" ++ serviceName ++ "' registered" }
      match updateGlobalProto env w serviceName metadata with
      | (w, some err) => (w, some err)
      | (w, none) =>
          match GenerateProtoCode env w with
          | (w, some err) => (w, some err)
          | (w, none) => (w, none)

/-- Collaborators whose outcomes do not depend on their arguments. -/
def Env.fixed (register openFile : Option String) (write : Option (Nat × String))
    (protoc : String × Option String) : Env :=
  { RegisterService := fun _ _ => register
    OpenFile := fun _ => openFile
    WriteString := fun _ => write
    CombinedOutput := fun _ => protoc }

/-- The text `s` contains the text `d` as a contiguous run of characters. -/
def containsText (s d : String) : Prop :=
  d.data <:+: s.data

instance (s d : String) : Decidable (containsText s d) := by
  unfold containsText; infer_instance

/-- The events emitted between the world `w` and a later world `w2`, in
emission order. -/
def eventsSince {L : Type} (w w2 : World L) : List Event :=
  (w2.emissions.drop w.emissions.length).map Emission.event

end Proto

namespace Cluster

/-! ### Lemmas on the task runner -/

theorem foldl_AddTask_tasks {T : Type} (ts : List (Task T)) (cm : ClusterManager T) :
    (ts.foldl ClusterManager.AddTask cm).tasks = cm.tasks ++ ts := by
  induction ts generalizing cm with
  | nil => simp
  | cons t ts ih => simp [List.foldl, ih, ClusterManager.AddTask]

theorem submit_tasks {T : Type} (ts : List (Task T)) : (submit ts).tasks = ts := by
  simp [submit, foldl_AddTask_tasks, NewClusterManager]

theorem goroutine_lengths {T : Type} (tasks : List (Task T)) (s : Slots T) (i : Nat) :
    (goroutine tasks s i).results.length = s.results.length ∧
    (goroutine tasks s i).errors.length = s.errors.length := by
  unfold goroutine
  cases tasks[i]? <;> simp

theorem runGoroutines_lengths {T : Type} (tasks : List (Task T)) (sched : List Nat)
    (s : Slots T) :
    (runGoroutines tasks sched s).results.length = s.results.length ∧
    (runGoroutines tasks sched s).errors.length = s.errors.length := by
  induction sched generalizing s with
  | nil => simp [runGoroutines]
  | cons i sched ih =>
    have h := ih (goroutine tasks s i)
    have g := goroutine_lengths tasks s i
    simp only [runGoroutines, List.foldl_cons] at h ⊢
    exact ⟨h.1.trans g.1, h.2.trans g.2⟩

/-- What slot `i` holds after the goroutines of `sched` ran: the outcome of task
`i` when its goroutine ran, the previous content otherwise. -/
theorem runGoroutines_slot {T : Type} (tasks : List (Task T)) (sched : List Nat)
    (s : Slots T) (hr : s.results.length = tasks.length)
    (he : s.errors.length = tasks.length) (i : Nat) :
    (runGoroutines tasks sched s).results[i]? =
        (if i ∈ sched ∧ i < tasks.length then tasks[i]?.map Task.value else s.results[i]?) ∧
    (runGoroutines tasks sched s).errors[i]? =
        (if i ∈ sched ∧ i < tasks.length then tasks[i]?.map Task.err else s.errors[i]?) := by
  induction sched generalizing s with
  | nil => simp [runGoroutines]
  | cons j sched ih =>
    have g := goroutine_lengths tasks s j
    have h := ih (goroutine tasks s j) (g.1.trans hr) (g.2.trans he)
    simp only [runGoroutines, List.foldl_cons] at h ⊢
    rw [h.1, h.2]
    by_cases hmem : i ∈ sched ∧ i < tasks.length
    · have hmem2 : i ∈ j :: sched ∧ i < tasks.length :=
        ⟨List.mem_cons_of_mem _ hmem.1, hmem.2⟩
      simp [hmem, hmem2]
    · simp only [if_neg hmem]
      by_cases hji : j = i
      · subst hji
        by_cases hlt : j < tasks.length
        · have hget : tasks[j]? = some tasks[j] := List.getElem?_eq_getElem hlt
          simp [goroutine, hget, Task.Execute, hlt, hr, he, List.getElem?_set]
        · have hnone : tasks[j]? = none := List.getElem?_eq_none (Nat.le_of_not_lt hlt)
          simp [goroutine, hnone, hlt]
      · have hnm : ¬ (i ∈ j :: sched ∧ i < tasks.length) := by
          rintro ⟨hm, hl⟩
          rcases List.mem_cons.1 hm with h1 | h1
          · exact hji h1.symm
          · exact hmem ⟨h1, hl⟩
        simp only [if_neg hnm]
        unfold goroutine
        cases tasks[j]? <;> simp [List.getElem?_set, hji]

/-- With a complete schedule the slots hold exactly the outcomes of the tasks,
index by index. -/
theorem runGoroutines_complete {T : Type} (tasks : List (Task T)) (sched : List Nat)
    (s : Slots T) (hr : s.results.length = tasks.length)
    (he : s.errors.length = tasks.length) (hs : Schedule tasks.length sched) :
    (runGoroutines tasks sched s).results = tasks.map Task.value ∧
    (runGoroutines tasks sched s).errors = tasks.map Task.err := by
  have hmem : ∀ i, i ∈ sched ↔ i < tasks.length := fun i => by
    rw [List.Perm.mem_iff hs, List.mem_range]
  constructor
  · apply List.ext_getElem?
    intro i
    rw [(runGoroutines_slot tasks sched s hr he i).1, List.getElem?_map]
    by_cases hlt : i < tasks.length
    · simp [hmem, hlt]
    · have h1 : tasks[i]? = none := List.getElem?_eq_none (Nat.le_of_not_lt hlt)
      have h2 : s.results[i]? = none := List.getElem?_eq_none (by omega)
      simp [hlt, h1, h2]
  · apply List.ext_getElem?
    intro i
    rw [(runGoroutines_slot tasks sched s hr he i).2, List.getElem?_map]
    by_cases hlt : i < tasks.length
    · simp [hmem, hlt]
    · have h1 : tasks[i]? = none := List.getElem?_eq_none (Nat.le_of_not_lt hlt)
      have h2 : s.errors[i]? = none := List.getElem?_eq_none (by omega)
      simp [hlt, h1, h2]

/-- The result slice and the aggregated text of `RunTasks` under a complete
schedule. -/
theorem RunTasks_eq {T : Type} (zero : T) (cm : ClusterManager T) (sched : List Nat)
    (hs : Schedule cm.tasks.length sched) :
    cm.RunTasks zero sched =
      (if aggregate (cm.tasks.map Task.err) "" ≠ "" then
        (cm.tasks.map Task.value,
          some ("errors occurred: " ++ aggregate (cm.tasks.map Task.err) ""))
      else (cm.tasks.map Task.value, none)) := by
  have h := runGoroutines_complete cm.tasks sched
    { results := List.replicate cm.tasks.length zero,
      errors := List.replicate cm.tasks.length none } (by simp) (by simp) hs
  simp only [ClusterManager.RunTasks, h.1, h.2]


/-- The aggregation loop appends, to its accumulator, each error text followed
by `"; "`, in slice order. -/
theorem aggregate_eq (errors : List (Option String)) (acc : String) :
    aggregate errors acc =
      acc ++ String.join ((errors.filterMap id).map (fun m => m ++ "; ")) := by
  induction errors generalizing acc with
  | nil =>
    apply String.ext
    simp [aggregate, String.data_join]
  | cons e errors ih =>
    cases e with
    | none =>
      have h := ih acc
      simp only [aggregate, List.foldl_cons] at h ⊢
      rw [h]
      simp
    | some m =>
      have h := ih (acc ++ (m ++ "; "))
      simp only [aggregate, List.foldl_cons] at h ⊢
      rw [h]
      apply String.ext
      simp [String.data_join, String.data_append]

theorem aggregate_tasks (T : Type) (ts : List (Task T)) :
    aggregate (ts.map Task.err) "" =
      String.join ((ts.filterMap Task.err).map (fun m => m ++ "; ")) := by
  rw [aggregate_eq, List.filterMap_map]
  apply String.ext
  simp [String.data_append]

theorem append_sep_ne_empty (m rest : String) : (m ++ "; ") ++ rest ≠ "" := by
  intro h
  have hl := congrArg String.length h
  simp [String.length_append] at hl
  have h2 : ("; " : String).length = 2 := by decide
  omega

/-- The aggregated text is empty exactly when no task failed. -/
theorem aggregate_tasks_eq_empty_iff (T : Type) (ts : List (Task T)) :
    aggregate (ts.map Task.err) "" = "" ↔ ∀ t ∈ ts, t.err = none := by
  rw [aggregate_tasks]
  induction ts with
  | nil => simp [String.join]
  | cons t ts ih =>
    cases ht : t.err with
    | none =>
      simp only [List.filterMap_cons, ht, List.mem_cons, forall_eq_or_imp, true_and]
      exact ih
    | some m =>
      simp only [List.filterMap_cons, ht, List.map_cons, List.mem_cons, forall_eq_or_imp]
      constructor
      · intro h
        exfalso
        refine append_sep_ne_empty m
          (String.join ((ts.filterMap Task.err).map (fun m => m ++ "; "))) ?_
        rw [← h]
        apply String.ext
        simp [String.data_join, String.data_append]
      · rintro ⟨h, _⟩
        cases h


end Cluster

namespace Cluster

/-! ### Claims on `RunTasks` -/

/-- C1: for every list `ts` of tasks added with `AddTask` to a new manager and
every completion order `sched` of the goroutines, `RunTasks` returns a result
slice of length `ts.length` whose element `i` is the value returned by the
`i`-th added task; with no task the slice is empty. -/
theorem C1_RunTasks_results_follow_submission_order {T : Type} (zero : T)
    (ts : List (Task T)) (sched : List Nat) (hs : Schedule ts.length sched) :
    ((submit ts).RunTasks zero sched).1.length = ts.length ∧
    (∀ (i : Nat) (t : Task T), ts[i]? = some t →
      ((submit ts).RunTasks zero sched).1[i]? = some t.value) ∧
    ((submit ts).RunTasks zero sched).1 = ts.map Task.value ∧
    (ts = [] → ((submit ts).RunTasks zero sched).1 = []) := by
  have hs2 : Schedule (submit ts).tasks.length sched := by rw [submit_tasks]; exact hs
  have hres : ((submit ts).RunTasks zero sched).1 = ts.map Task.value := by
    rw [RunTasks_eq zero (submit ts) sched hs2, submit_tasks]
    split <;> rfl
  refine ⟨by rw [hres, List.length_map], ?_, hres, ?_⟩
  · intro i t hit
    rw [hres, List.getElem?_map, hit]
    rfl
  · intro hnil
    rw [hres, hnil]
    rfl

/-- C1, at three integer tasks completing in the order 2, 0, 1 (the second one
failing): the results are the three returned values in submission order. -/
theorem C1_RunTasks_results_follow_submission_order_witness :
    Schedule 3 [2, 0, 1] ∧
    ((submit [⟨10, none⟩, ⟨20, some "boom"⟩, ⟨30, none⟩]).RunTasks (0 : Nat) [2, 0, 1]).1
      = [10, 20, 30] := by
  refine ⟨by decide, ?_⟩
  have h := C1_RunTasks_results_follow_submission_order (0 : Nat)
    [⟨10, none⟩, ⟨20, some "boom"⟩, ⟨30, none⟩] [2, 0, 1] (by decide)
  exact h.2.2.1

/-- C2: under every completion order, the error returned by `RunTasks` is `nil`
exactly when no task returned an error; a task failing with the empty message
still makes the aggregated error present, and with no task there is no error. -/
theorem C2_RunTasks_error_nil_iff_all_succeeded {T : Type} (zero : T)
    (ts : List (Task T)) (sched : List Nat) (hs : Schedule ts.length sched) :
    (((submit ts).RunTasks zero sched).2 = none ↔ ∀ t ∈ ts, t.err = none) ∧
    ((∃ t ∈ ts, t.err = some "") → ((submit ts).RunTasks zero sched).2 ≠ none) ∧
    (ts = [] → ((submit ts).RunTasks zero sched).2 = none) := by
  have hs2 : Schedule (submit ts).tasks.length sched := by rw [submit_tasks]; exact hs
  have hiff : ((submit ts).RunTasks zero sched).2 = none ↔ ∀ t ∈ ts, t.err = none := by
    rw [RunTasks_eq zero (submit ts) sched hs2, submit_tasks,
      ← aggregate_tasks_eq_empty_iff T ts]
    by_cases h : aggregate (ts.map Task.err) "" = ""
    · simp [h]
    · simp [h]
  refine ⟨hiff, ?_, ?_⟩
  · rintro ⟨t, ht, hte⟩ hnone
    have := hiff.1 hnone t ht
    rw [hte] at this
    cases this
  · intro hnil
    apply hiff.2
    intro t ht
    rw [hnil] at ht
    cases ht

/-- C2, at two tasks of which the second fails with the empty message: the
aggregated error is present. -/
theorem C2_RunTasks_error_nil_iff_all_succeeded_witness :
    Schedule 2 [1, 0] ∧
    ((submit [⟨"a", none⟩, ⟨"", some ""⟩]).RunTasks "" [1, 0]).2 ≠ none := by
  refine ⟨by decide, ?_⟩
  have h := C2_RunTasks_error_nil_iff_all_succeeded ""
    [⟨"a", none⟩, ⟨"", some ""⟩] [1, 0] (by decide)
  exact h.2.1 ⟨⟨"", some ""⟩, by simp, rfl⟩

end Cluster

namespace Cluster

/-- C3, as stated, fails: one task failing with `"disk full"` gives the message
`"errors occurred: disk full; "`, not `"disk full; "`. -/
theorem C3_counterexample_message_has_leading_text :
    Schedule 1 [0] ∧
    ((submit [⟨"", some "disk full"⟩]).RunTasks "" [0]).2
      = some "errors occurred: disk full; " ∧
    ((submit [⟨"", some "disk full"⟩]).RunTasks "" [0]).2
      ≠ some (String.join (["disk full"].map (fun m => m ++ "; "))) := by
  refine ⟨by decide, by decide, by decide⟩

/-- C3 (amended): when at least one task fails, the message of the error returned
by `RunTasks` is the fixed text `"errors occurred: "` followed by the
concatenation, in submission order, of each failing task's message followed by
`"; "`; with exactly one failure of message `m` it is
`"errors occurred: " ++ m ++ "; "`. -/
theorem C3_RunTasks_error_message {T : Type} (zero : T)
    (ts : List (Task T)) (sched : List Nat) (hs : Schedule ts.length sched)
    (hfail : ∃ t ∈ ts, t.err ≠ none) :
    ((submit ts).RunTasks zero sched).2 =
      some ("errors occurred: " ++
        String.join ((ts.filterMap Task.err).map (fun m => m ++ "; "))) ∧
    (∀ m, ts.filterMap Task.err = [m] →
      ((submit ts).RunTasks zero sched).2 = some ("errors occurred: " ++ (m ++ "; "))) := by
  have hs2 : Schedule (submit ts).tasks.length sched := by rw [submit_tasks]; exact hs
  have hne : aggregate (ts.map Task.err) "" ≠ "" := by
    intro h
    obtain ⟨t, ht, hte⟩ := hfail
    exact hte ((aggregate_tasks_eq_empty_iff T ts).1 h t ht)
  have hmain : ((submit ts).RunTasks zero sched).2 =
      some ("errors occurred: " ++
        String.join ((ts.filterMap Task.err).map (fun m => m ++ "; "))) := by
    rw [RunTasks_eq zero (submit ts) sched hs2, submit_tasks, if_pos hne, aggregate_tasks]
  refine ⟨hmain, ?_⟩
  intro m hm
  rw [hmain, hm]
  congr 2

/-- C3 (amended), at three tasks of which the first and the last fail, completing
in the order 1, 2, 0. -/
theorem C3_RunTasks_error_message_witness :
    Schedule 3 [1, 2, 0] ∧
    ((submit [⟨0, some "disk full"⟩, ⟨7, none⟩, ⟨0, some "timeout"⟩]).RunTasks
        (0 : Nat) [1, 2, 0]).2
      = some "errors occurred: disk full; timeout; " := by
  refine ⟨by decide, ?_⟩
  have h := C3_RunTasks_error_message (0 : Nat)
    [⟨0, some "disk full"⟩, ⟨7, none⟩, ⟨0, some "timeout"⟩] [1, 2, 0] (by decide)
    ⟨⟨0, some "disk full"⟩, by simp, by simp⟩
  rw [h.1]
  decide

/-- C4, as stated, fails: a task that returns `"partial"` together with the error
`"disk full"` leaves `"partial"`, not the zero value `""`, in its slot. -/
theorem C4_counterexample_failed_slot_keeps_returned_value :
    Schedule 3 [0, 1, 2] ∧
    ((submit [⟨"r0", none⟩, ⟨"partial", some "disk full"⟩, ⟨"r2", none⟩]).RunTasks
        "" [0, 1, 2]).1 = ["r0", "partial", "r2"] ∧
    ((submit [⟨"r0", none⟩, ⟨"partial", some "disk full"⟩, ⟨"r2", none⟩]).RunTasks
        "" [0, 1, 2]).1[1]? ≠ some "" := by
  refine ⟨by decide, by decide, by decide⟩

/-- C4 (amended): for every index `i` whose task returns an error, element `i` of
the result slice is the value that task returned alongside its error; it is the
zero value of `T` when the failing task returned the zero value. -/
theorem C4_RunTasks_failed_slot {T : Type} (zero : T)
    (ts : List (Task T)) (sched : List Nat) (hs : Schedule ts.length sched)
    (i : Nat) (t : Task T) (hit : ts[i]? = some t) (_hfail : t.err ≠ none) :
    ((submit ts).RunTasks zero sched).1[i]? = some t.value ∧
    (t.value = zero → ((submit ts).RunTasks zero sched).1[i]? = some zero) := by
  have hs2 : Schedule (submit ts).tasks.length sched := by rw [submit_tasks]; exact hs
  have hres : ((submit ts).RunTasks zero sched).1 = ts.map Task.value := by
    rw [RunTasks_eq zero (submit ts) sched hs2, submit_tasks]
    split <;> rfl
  have hval : ((submit ts).RunTasks zero sched).1[i]? = some t.value := by
    rw [hres, List.getElem?_map, hit]
    rfl
  exact ⟨hval, fun hz => by rw [hval, hz]⟩

/-- C4 (amended), at the three string tasks of the specification's example: the
second fails with `"disk full"` and returns `""`, the results are
`[r0, "", r2]`. -/
theorem C4_RunTasks_failed_slot_witness :
    Schedule 3 [2, 1, 0] ∧
    ((submit [⟨"r0", none⟩, ⟨"", some "disk full"⟩, ⟨"r2", none⟩]).RunTasks
        "" [2, 1, 0]).1[1]? = some "" := by
  refine ⟨by decide, ?_⟩
  exact (C4_RunTasks_failed_slot ""
    [⟨"r0", none⟩, ⟨"", some "disk full"⟩, ⟨"r2", none⟩] [2, 1, 0] (by decide)
    1 ⟨"", some "disk full"⟩ rfl (by simp)).2 rfl

end Cluster

namespace Proto

/-! ### Lemmas on the event bus -/

theorem runBus_append {L : Type} (w : World L) (xs ys : List (BusCall L)) :
    runBus w (xs ++ ys) = runBus (runBus w xs) ys := by
  simp [runBus, List.foldl_append]

theorem runBus_cons {L : Type} (w : World L) (x : BusCall L) (xs : List (BusCall L)) :
    runBus w (x :: xs) = runBus (busStep w x) xs := rfl

/-- The listener slice after a sequence of bus calls: the old listeners followed
by the added ones, in order. -/
theorem runBus_eventListeners {L : Type} (w : World L) (calls : List (BusCall L)) :
    (runBus w calls).pm.eventListeners = w.pm.eventListeners ++ addedBy calls := by
  induction calls generalizing w with
  | nil => simp [runBus, addedBy]
  | cons c calls ih =>
    rw [runBus_cons, ih]
    cases c with
    | add l => simp [busStep, AddEventListener, addedBy]
    | emit e => simp [busStep, emitEvent, addedBy]

/-- Bus calls only append to the record of emissions, one entry per `emit`. -/
theorem runBus_emissions {L : Type} (w : World L) (calls : List (BusCall L)) :
    ∃ tail : List (Emission L),
      (runBus w calls).emissions = w.emissions ++ tail ∧
      tail.length = (emittedBy calls).length := by
  induction calls generalizing w with
  | nil => exact ⟨[], by simp [runBus], rfl⟩
  | cons c calls ih =>
    rw [runBus_cons]
    obtain ⟨tail, h1, h2⟩ := ih (busStep w c)
    cases c with
    | add l =>
      refine ⟨tail, ?_, ?_⟩
      · rw [h1]; simp [busStep, AddEventListener]
      · simpa [emittedBy] using h2
    | emit e =>
      refine ⟨{ event := e, invoked := w.pm.eventListeners } :: tail, ?_, ?_⟩
      · rw [h1]; simp [busStep, emitEvent]
      · simp [emittedBy, h2]

theorem emittedBy_append {L : Type} (xs ys : List (BusCall L)) :
    emittedBy (xs ++ ys) = emittedBy xs ++ emittedBy ys := by
  induction xs with
  | nil => rfl
  | cons c xs ih => cases c <;> simp [emittedBy, ih]

theorem count_addedBy {L : Type} [DecidableEq L] (calls : List (BusCall L)) (l : L) :
    (addedBy calls).count l = calls.count (BusCall.add l) := by
  induction calls with
  | nil => rfl
  | cons c calls ih =>
    cases c with
    | add l2 =>
      by_cases h : l2 = l
      · subst h; simp [addedBy, ih]
      · have h2 : ¬ (BusCall.add l2 : BusCall L) = BusCall.add l := by
          intro hc; exact h (BusCall.add.inj hc)
        simp [addedBy, ih, List.count_cons, h, h2]
    | emit e => simp [addedBy, ih, List.count_cons]

/-! ### Claims on the event bus and the signal loop -/

/-- C5: in every finite sequence of `AddEventListener` and `emitEvent` calls on
a new `ProtoManager`, split at any `emitEvent e` call as `pre`, the call, `post`:
that call starts `listener(e)` for exactly the listeners added in `pre`, in order
of addition and once per addition, whatever `post` is; so a listener is invoked
once for each emission after its addition, never for an emission before it, and
an event emitted twice is delivered by each of the two calls (every `emitEvent`
call leaves its own entry in the record). -/
theorem C5_emitEvent_invokes_listeners_added_before {L : Type} [DecidableEq L]
    (gp md od file : String) (pre post : List (BusCall L)) (e : Event) :
    (runBus (NewProtoManager L gp md od file) (pre ++ BusCall.emit e :: post)).emissions.length
      = (emittedBy (pre ++ BusCall.emit e :: post)).length ∧
    (runBus (NewProtoManager L gp md od file) (pre ++ BusCall.emit e :: post)).emissions[
        (emittedBy pre).length]? = some { event := e, invoked := addedBy pre } ∧
    (∀ l : L, (addedBy pre).count l = pre.count (BusCall.add l)) ∧
    (∀ l : L, BusCall.add l ∉ pre → (addedBy pre).count l = 0) := by
  have hcount : ∀ l : L, (addedBy pre).count l = pre.count (BusCall.add l) :=
    fun l => count_addedBy pre l
  refine ⟨?_, ?_, hcount, ?_⟩
  · obtain ⟨tail, h1, h2⟩ :=
      runBus_emissions (NewProtoManager L gp md od file) (pre ++ BusCall.emit e :: post)
    rw [h1]
    simp [NewProtoManager, h2]
  · rw [runBus_append, runBus_cons]
    obtain ⟨t1, h1, h2⟩ := runBus_emissions (NewProtoManager L gp md od file) pre
    obtain ⟨t2, h3, _⟩ :=
      runBus_emissions (busStep (runBus (NewProtoManager L gp md od file) pre)
        (BusCall.emit e)) post
    have hl := runBus_eventListeners (NewProtoManager L gp md od file) pre
    have h1e : (runBus (NewProtoManager L gp md od file) pre).emissions = t1 := by
      rw [h1]; simp [NewProtoManager]
    have hle : (runBus (NewProtoManager L gp md od file) pre).pm.eventListeners
        = addedBy pre := by
      rw [hl]; simp [NewProtoManager]
    rw [h3]
    simp only [busStep, emitEvent, h1e, hle]
    rw [List.append_assoc, List.getElem?_append_right (by omega)]
    simp [h2]
  · intro l hl
    rw [hcount l]
    exact List.count_eq_zero.2 hl

/-- C5, on the calls add 1, emit E1, add 2, emit E2, emit E2: listener 2, added
after E1, is not invoked for E1; both listeners are invoked by each of the two
emissions of E2. -/
theorem C5_emitEvent_invokes_listeners_added_before_witness :
    (runBus (NewProtoManager Nat "g" "m" "o" "")
        [BusCall.add 1, BusCall.emit ⟨"Info", "E1"⟩, BusCall.add 2,
         BusCall.emit ⟨"Info", "E2"⟩, BusCall.emit ⟨"Info", "E2"⟩]).emissions[2]?
      = some { event := ⟨"Info", "E2"⟩, invoked := [1, 2] } ∧
    (runBus (NewProtoManager Nat "g" "m" "o" "")
        [BusCall.add 1, BusCall.emit ⟨"Info", "E1"⟩, BusCall.add 2,
         BusCall.emit ⟨"Info", "E2"⟩, BusCall.emit ⟨"Info", "E2"⟩]).emissions
      = [⟨⟨"Info", "E1"⟩, [1]⟩, ⟨⟨"Info", "E2"⟩, [1, 2]⟩, ⟨⟨"Info", "E2"⟩, [1, 2]⟩] := by
  refine ⟨?_, by decide⟩
  exact (C5_emitEvent_invokes_listeners_added_before "g" "m" "o" ""
    [BusCall.add 1, BusCall.emit ⟨"Info", "E1"⟩, BusCall.add 2, BusCall.emit ⟨"Info", "E2"⟩]
    [] ⟨"Info", "E2"⟩).2.1

end Proto

namespace Proto

/-- C6: for every finite sequence of signals received by `ListenForSignal`, the
actions sent on `ActionCh` are one `"reload"` for each `SIGHUP` that precedes the
first `SIGINT`/`SIGTERM`, followed by one `"shutdown"` exactly when a `SIGINT` or
`SIGTERM` occurs; the loop returns exactly in that case and leaves every later
signal unread; at most one `"shutdown"` is produced, and a sequence of `SIGHUP`s
alone never makes the loop return. -/
theorem C6_ListenForSignal_actions (sigs : List Signal) :
    (ListenForSignal sigs).actions =
      List.replicate
          ((sigs.takeWhile (fun s => !s.isTermination)).count Signal.SIGHUP) "reload" ++
        (if sigs.any Signal.isTermination then ["shutdown"] else []) ∧
    (ListenForSignal sigs).returned = sigs.any Signal.isTermination ∧
    (ListenForSignal sigs).unread =
      (sigs.dropWhile (fun s => !s.isTermination)).tail ∧
    (ListenForSignal sigs).actions.count "shutdown" ≤ 1 ∧
    ((∀ s ∈ sigs, s = Signal.SIGHUP) →
      (ListenForSignal sigs).returned = false ∧
      (ListenForSignal sigs).actions = List.replicate sigs.length "reload") := by
  induction sigs with
  | nil => simp [ListenForSignal]
  | cons sig rest ih =>
    obtain ⟨ih1, ih2, ih3, ih4, ih5⟩ := ih
    cases sig with
    | SIGINT => simp [ListenForSignal, Signal.isTermination]
    | SIGTERM => simp [ListenForSignal, Signal.isTermination]
    | SIGHUP =>
      refine ⟨?_, ?_, ?_, ?_, ?_⟩
      · simp [ListenForSignal, Signal.isTermination, ih1, List.replicate_succ]
      · simp [ListenForSignal, Signal.isTermination, ih2]
      · simp [ListenForSignal, Signal.isTermination, ih3]
      · have hne : ¬ ("reload" : String) = "shutdown" := by decide
        simpa [ListenForSignal, List.count_cons, hne] using ih4
      · intro h
        have h2 := ih5 (fun s hs => h s (List.mem_cons_of_mem _ hs))
        simp [ListenForSignal, h2.1, h2.2, List.replicate_succ]
    | other n =>
      refine ⟨?_, ?_, ?_, ?_, ?_⟩
      · simp [ListenForSignal, Signal.isTermination, ih1]
      · simp [ListenForSignal, Signal.isTermination, ih2]
      · simp [ListenForSignal, Signal.isTermination, ih3]
      · simpa [ListenForSignal] using ih4
      · intro h
        have := h (Signal.other n) (List.mem_cons_self _ _)
        cases this

/-- C6, on HUP, HUP, INT, HUP, TERM: two reloads, one shutdown, the loop returns
and the last two signals stay unread. -/
theorem C6_ListenForSignal_actions_witness :
    ListenForSignal
        [Signal.SIGHUP, Signal.SIGHUP, Signal.SIGINT, Signal.SIGHUP, Signal.SIGTERM]
      = { actions := ["reload", "reload", "shutdown"], returned := true,
          unread := [Signal.SIGHUP, Signal.SIGTERM] } ∧
    (ListenForSignal
        [Signal.SIGHUP, Signal.SIGHUP, Signal.SIGINT, Signal.SIGHUP, Signal.SIGTERM]
      ).actions.count "shutdown" ≤ 1 := by
  refine ⟨by decide, ?_⟩
  exact (C6_ListenForSignal_actions
    [Signal.SIGHUP, Signal.SIGHUP, Signal.SIGINT, Signal.SIGHUP, Signal.SIGTERM]).2.2.2.1

end Proto

namespace Proto

/-! ### Lemmas on the registration workflow -/

theorem nonempty_append_ne_empty (p x : String) (hp : p ≠ "") : p ++ x ≠ "" := by
  intro h
  apply hp
  have hl := congrArg String.length h
  simp [String.length_append] at hl
  exact String.ext (by simpa using List.length_eq_zero.1 hl.1)

/-- The registry refuses: one `Error` event, nothing else is touched. -/
theorem RegisterMicroservice_registry_fails {L : Type} (env : Env) (w : World L)
    (s d v e : String) (hreg : env.RegisterService s ⟨d, v⟩ = some e) :
    (RegisterMicroservice env w s d v).2 = some e ∧
    eventsSince w (RegisterMicroservice env w s d v).1 =
      [⟨"Error", "Failed to register service '" ++ s ++ "': " ++ e⟩] ∧
    (RegisterMicroservice env w s d v).1.globalProto = w.globalProto ∧
    (RegisterMicroservice env w s d v).1.commands = w.commands := by
  simp [RegisterMicroservice, hreg, emitEvent, logLine, eventsSince]

/-- The registry accepts, the file cannot be opened. -/
theorem RegisterMicroservice_open_fails {L : Type} (env : Env) (w : World L)
    (s d v e : String) (hreg : env.RegisterService s ⟨d, v⟩ = none)
    (hopen : env.OpenFile w.pm.GlobalProtoPath = some e) :
    (RegisterMicroservice env w s d v).2 = some e ∧
    eventsSince w (RegisterMicroservice env w s d v).1 =
      [⟨"ServiceRegistered", "Service '" ++ s ++ "' registered"⟩,
       ⟨"Error", "Failed to open global proto file: " ++ e⟩] ∧
    (RegisterMicroservice env w s d v).1.globalProto = w.globalProto ∧
    (RegisterMicroservice env w s d v).1.commands = w.commands := by
  simp [RegisterMicroservice, updateGlobalProto, hreg, hopen, emitEvent, logLine, eventsSince]

/-- The registry accepts, the file opens, the write fails after `n` characters. -/
theorem RegisterMicroservice_write_fails {L : Type} (env : Env) (w : World L)
    (s d v e : String) (n : Nat) (hreg : env.RegisterService s ⟨d, v⟩ = none)
    (hopen : env.OpenFile w.pm.GlobalProtoPath = none)
    (hwrite : env.WriteString (serviceDefinition s) = some (n, e)) :
    (RegisterMicroservice env w s d v).2 = some e ∧
    eventsSince w (RegisterMicroservice env w s d v).1 =
      [⟨"ServiceRegistered", "Service '" ++ s ++ "' registered"⟩,
       ⟨"Error", "Failed to write to global proto file: " ++ e⟩] ∧
    (RegisterMicroservice env w s d v).1.globalProto =
      w.globalProto ++ (serviceDefinition s).take n ∧
    (RegisterMicroservice env w s d v).1.commands = w.commands := by
  simp [RegisterMicroservice, updateGlobalProto, hreg, hopen, hwrite, emitEvent, logLine,
    eventsSince]

/-- The registry accepts, the stub is appended, the code generation fails. -/
theorem RegisterMicroservice_codegen_fails {L : Type} (env : Env) (w : World L)
    (s d v e out : String) (hreg : env.RegisterService s ⟨d, v⟩ = none)
    (hopen : env.OpenFile w.pm.GlobalProtoPath = none)
    (hwrite : env.WriteString (serviceDefinition s) = none)
    (hgen : env.CombinedOutput (protocCommand w.pm) = (out, some e)) :
    (RegisterMicroservice env w s d v).2 = some e ∧
    eventsSince w (RegisterMicroservice env w s d v).1 =
      [⟨"ServiceRegistered", "Service '" ++ s ++ "' registered"⟩,
       ⟨"GlobalProtoUpdated", "Global proto updated for service '" ++ s ++ "'"⟩,
       ⟨"Error", "Failed to regenerate code: " ++ e⟩] ∧
    (RegisterMicroservice env w s d v).1.globalProto =
      w.globalProto ++ serviceDefinition s ∧
    (RegisterMicroservice env w s d v).1.commands = w.commands ++ [protocCommand w.pm] := by
  simp [RegisterMicroservice, updateGlobalProto, GenerateProtoCode, hreg, hopen, hwrite, hgen,
    emitEvent, logLine, eventsSince]

/-- Every collaborator succeeds. -/
theorem RegisterMicroservice_all_succeed {L : Type} (env : Env) (w : World L)
    (s d v out : String) (hreg : env.RegisterService s ⟨d, v⟩ = none)
    (hopen : env.OpenFile w.pm.GlobalProtoPath = none)
    (hwrite : env.WriteString (serviceDefinition s) = none)
    (hgen : env.CombinedOutput (protocCommand w.pm) = (out, none)) :
    (RegisterMicroservice env w s d v).2 = none ∧
    eventsSince w (RegisterMicroservice env w s d v).1 =
      [⟨"ServiceRegistered", "Service '" ++ s ++ "' registered"⟩,
       ⟨"GlobalProtoUpdated", "Global proto updated for service '" ++ s ++ "'"⟩,
       ⟨"CodeGenerated", "Code regenerated successfully"⟩] ∧
    (RegisterMicroservice env w s d v).1.globalProto =
      w.globalProto ++ serviceDefinition s ∧
    (RegisterMicroservice env w s d v).1.commands = w.commands ++ [protocCommand w.pm] := by
  simp [RegisterMicroservice, updateGlobalProto, GenerateProtoCode, hreg, hopen, hwrite, hgen,
    emitEvent, logLine, eventsSince]

/-! ### Claims on the registration workflow -/

/-- C7: for every prior content of the global definition file and every service
name `s`, if the registry call succeeds, the append to the file succeeds and the
code generation then fails with error `e`, `RegisterMicroservice` returns `e` and
the file content is the prior content followed by the stub generated for `s`
(the appended stub stays in the file). -/
theorem C7_RegisterMicroservice_keeps_stub_when_codegen_fails {L : Type} (env : Env)
    (w : World L) (s d v e out : String)
    (hreg : env.RegisterService s ⟨d, v⟩ = none)
    (hopen : env.OpenFile w.pm.GlobalProtoPath = none)
    (hwrite : env.WriteString (serviceDefinition s) = none)
    (hgen : env.CombinedOutput (protocCommand w.pm) = (out, some e)) :
    (RegisterMicroservice env w s d v).2 = some e ∧
    (RegisterMicroservice env w s d v).1.globalProto =
      w.globalProto ++ serviceDefinition s := by
  have h := RegisterMicroservice_codegen_fails env w s d v e out hreg hopen hwrite hgen
  exact ⟨h.1, h.2.2.1⟩

/-- C7, for the service `Billing` on a file holding a `syntax` line, with a
`protoc` that exits with status 1. -/
theorem C7_RegisterMicroservice_keeps_stub_when_codegen_fails_witness :
    (RegisterMicroservice
        (Env.fixed none none none ("global.proto: syntax error", some "exit status 1"))
        (NewProtoManager Nat "global.proto" "protos" "out" "syntax = \"proto3\";\n")
        "Billing" "payments" "v1").2 = some "exit status 1" ∧
    (RegisterMicroservice
        (Env.fixed none none none ("global.proto: syntax error", some "exit status 1"))
        (NewProtoManager Nat "global.proto" "protos" "out" "syntax = \"proto3\";\n")
        "Billing" "payments" "v1").1.globalProto =
      "syntax = \"proto3\";\n" ++ serviceDefinition "Billing" :=
  C7_RegisterMicroservice_keeps_stub_when_codegen_fails
    (Env.fixed none none none ("global.proto: syntax error", some "exit status 1"))
    (NewProtoManager Nat "global.proto" "protos" "out" "syntax = \"proto3\";\n")
    "Billing" "payments" "v1" "exit status 1" "global.proto: syntax error" rfl rfl rfl rfl

end Proto

namespace Proto

/-- C8, as stated, fails: when `protoc` fails with output
`"global.proto:3:1: syntax error"` and error `"exit status 1"`, the only event
emitted is `Error` with message `"Failed to regenerate code: exit status 1"`,
which does not contain the captured output. -/
theorem C8_counterexample_error_event_lacks_output :
    eventsSince (NewProtoManager Nat "global.proto" "protos" "out" "")
        (GenerateProtoCode
          (Env.fixed none none none ("global.proto:3:1: syntax error", some "exit status 1"))
          (NewProtoManager Nat "global.proto" "protos" "out" "")).1
      = [⟨"Error", "Failed to regenerate code: exit status 1"⟩] ∧
    ¬ containsText "Failed to regenerate code: exit status 1"
        "global.proto:3:1: syntax error" := by
  refine ⟨by decide, by decide⟩

/-- C8 (amended): when the code-generation process fails with error `e` and
captured output `out`, `GenerateProtoCode` returns `e` and emits exactly one
event, of type `Error`, whose message is `"Failed to regenerate code: "` followed
by the text of `e`, whatever `out` is; the captured output is written to the
log line only. -/
theorem C8_GenerateProtoCode_error_event {L : Type} (env : Env) (w : World L)
    (e out : String) (hgen : env.CombinedOutput (protocCommand w.pm) = (out, some e)) :
    (GenerateProtoCode env w).2 = some e ∧
    eventsSince w (GenerateProtoCode env w).1 =
      [⟨"Error", "Failed to regenerate code: " ++ e⟩] ∧
    (GenerateProtoCode env w).1.logs =
      w.logs ++ ["Regenerating code from proto files...",
        "Failed to regenerate code: " ++ e ++ "\nOutput: " ++ out] := by
  simp [GenerateProtoCode, hgen, emitEvent, logLine, eventsSince]

/-- C8 (amended), with the output `"global.proto:3:1: syntax error"` and the
error `"exit status 1"`. -/
theorem C8_GenerateProtoCode_error_event_witness :
    eventsSince (NewProtoManager Nat "global.proto" "protos" "out" "")
        (GenerateProtoCode
          (Env.fixed none none none ("global.proto:3:1: syntax error", some "exit status 1"))
          (NewProtoManager Nat "global.proto" "protos" "out" "")).1
      = [⟨"Error", "Failed to regenerate code: " ++ "exit status 1"⟩] :=
  (C8_GenerateProtoCode_error_event
    (Env.fixed none none none ("global.proto:3:1: syntax error", some "exit status 1"))
    (NewProtoManager Nat "global.proto" "protos" "out" "")
    "exit status 1" "global.proto:3:1: syntax error" rfl).2.1

/-- C9: for every combination of outcomes of the registry call, of opening and
writing the global definition file and of the code-generation process, if
`RegisterMicroservice` returns a non-nil error then an event of type `"Error"`
with a non-empty message was emitted during the call, and if it returns nil then
no event of type `"Error"` was emitted during the call. -/
theorem C9_RegisterMicroservice_error_iff_error_event {L : Type} (env : Env)
    (w : World L) (s d v : String) :
    ((RegisterMicroservice env w s d v).2 ≠ none →
      ∃ ev ∈ eventsSince w (RegisterMicroservice env w s d v).1,
        ev.Type_ = "Error" ∧ ev.Message ≠ "") ∧
    ((RegisterMicroservice env w s d v).2 = none →
      ∀ ev ∈ eventsSince w (RegisterMicroservice env w s d v).1, ev.Type_ ≠ "Error") := by
  cases hreg : env.RegisterService s ⟨d, v⟩ with
  | some e =>
    obtain ⟨h1, h2, -, -⟩ := RegisterMicroservice_registry_fails env w s d v e hreg
    rw [h1, h2]
    refine ⟨fun _ => ⟨_, List.mem_singleton.2 rfl, rfl, ?_⟩, fun h => by cases h⟩
    simp only [String.append_assoc]
    exact nonempty_append_ne_empty _ _ (by decide)
  | none =>
    cases hopen : env.OpenFile w.pm.GlobalProtoPath with
    | some e =>
      obtain ⟨h1, h2, -, -⟩ := RegisterMicroservice_open_fails env w s d v e hreg hopen
      rw [h1, h2]
      refine ⟨fun _ => ⟨⟨"Error", "Failed to open global proto file: " ++ e⟩,
        by simp, rfl, ?_⟩, fun h => by cases h⟩
      exact nonempty_append_ne_empty _ _ (by decide)
    | none =>
      cases hwrite : env.WriteString (serviceDefinition s) with
      | some ne =>
        obtain ⟨n, e⟩ := ne
        obtain ⟨h1, h2, -, -⟩ :=
          RegisterMicroservice_write_fails env w s d v e n hreg hopen hwrite
        rw [h1, h2]
        refine ⟨fun _ => ⟨⟨"Error", "Failed to write to global proto file: " ++ e⟩,
          by simp, rfl, ?_⟩, fun h => by cases h⟩
        exact nonempty_append_ne_empty _ _ (by decide)
      | none =>
        cases hgen : env.CombinedOutput (protocCommand w.pm) with
        | mk out err =>
          cases err with
          | some e =>
            obtain ⟨h1, h2, -, -⟩ :=
              RegisterMicroservice_codegen_fails env w s d v e out hreg hopen hwrite hgen
            rw [h1, h2]
            refine ⟨fun _ => ⟨⟨"Error", "Failed to regenerate code: " ++ e⟩,
              by simp, rfl, ?_⟩, fun h => by cases h⟩
            exact nonempty_append_ne_empty _ _ (by decide)
          | none =>
            obtain ⟨h1, h2, -, -⟩ :=
              RegisterMicroservice_all_succeed env w s d v out hreg hopen hwrite hgen
            rw [h1, h2]
            refine ⟨fun h => absurd rfl h, fun _ ev hev => ?_⟩
            simp only [List.mem_cons, List.mem_singleton, List.not_mem_nil, or_false] at hev
            rcases hev with rfl | rfl | rfl
            · exact (by decide : ¬ ("ServiceRegistered" : String) = "Error")
            · exact (by decide : ¬ ("GlobalProtoUpdated" : String) = "Error")
            · exact (by decide : ¬ ("CodeGenerated" : String) = "Error")

/-- C9, for a registry that refuses the service with the empty error text: the
call fails and an `Error` event with a non-empty message was emitted. -/
theorem C9_RegisterMicroservice_error_iff_error_event_witness :
    (RegisterMicroservice (Env.fixed (some "") none none ("", none))
        (NewProtoManager Nat "global.proto" "protos" "out" "") "Billing" "payments" "v1").2
      ≠ none ∧
    ∃ ev ∈ eventsSince (NewProtoManager Nat "global.proto" "protos" "out" "")
        (RegisterMicroservice (Env.fixed (some "") none none ("", none))
          (NewProtoManager Nat "global.proto" "protos" "out" "")
          "Billing" "payments" "v1").1,
      ev.Type_ = "Error" ∧ ev.Message ≠ "" :=
  ⟨by decide,
   (C9_RegisterMicroservice_error_iff_error_event (Env.fixed (some "") none none ("", none))
      (NewProtoManager Nat "global.proto" "protos" "out" "") "Billing" "payments" "v1").1
      (by decide)⟩

end Proto

namespace Proto

/-- C10, as stated, fails: when the registry accepts the service and the global
definition file cannot be opened, a `ServiceRegistered` event has been emitted
although the file is unchanged (it does not hold the stub). -/
theorem C10_counterexample_ServiceRegistered_without_append :
    eventsSince (NewProtoManager Nat "global.proto" "protos" "out" "syntax = \"proto3\";\n")
        (RegisterMicroservice
          (Env.fixed none (some "open global.proto: permission denied") none ("", none))
          (NewProtoManager Nat "global.proto" "protos" "out" "syntax = \"proto3\";\n")
          "Billing" "payments" "v1").1
      = [⟨"ServiceRegistered", "Service 'Billing' registered"⟩,
         ⟨"Error", "Failed to open global proto file: open global.proto: permission denied"⟩] ∧
    (RegisterMicroservice
        (Env.fixed none (some "open global.proto: permission denied") none ("", none))
        (NewProtoManager Nat "global.proto" "protos" "out" "syntax = \"proto3\";\n")
        "Billing" "payments" "v1").1.globalProto = "syntax = \"proto3\";\n" ∧
    (RegisterMicroservice
        (Env.fixed none (some "open global.proto: permission denied") none ("", none))
        (NewProtoManager Nat "global.proto" "protos" "out" "syntax = \"proto3\";\n")
        "Billing" "payments" "v1").1.globalProto
      ≠ "syntax = \"proto3\";\n" ++ serviceDefinition "Billing" := by
  refine ⟨by decide, by decide, by decide⟩

/-- C10 (amended): in `RegisterMicroservice` the `"ServiceRegistered"` event is
emitted on success of the registry call, before the append is attempted: for
every combination of collaborator outcomes a `"ServiceRegistered"` event is
emitted during the call exactly when the registry call succeeded. The event
emitted on success of the append is `"GlobalProtoUpdated"`: if it was emitted
during the call then the stub for the service has been appended to the global
definition file, and it is emitted exactly when the registry call, the opening
of the file and the write all succeeded. -/
theorem C10_RegisterMicroservice_events_and_append {L : Type} (env : Env)
    (w : World L) (s d v : String) :
    ((∃ ev ∈ eventsSince w (RegisterMicroservice env w s d v).1,
        ev.Type_ = "ServiceRegistered") ↔ env.RegisterService s ⟨d, v⟩ = none) ∧
    ((∃ ev ∈ eventsSince w (RegisterMicroservice env w s d v).1,
        ev.Type_ = "GlobalProtoUpdated") →
      (RegisterMicroservice env w s d v).1.globalProto =
        w.globalProto ++ serviceDefinition s) ∧
    ((∃ ev ∈ eventsSince w (RegisterMicroservice env w s d v).1,
        ev.Type_ = "GlobalProtoUpdated") ↔
      (env.RegisterService s ⟨d, v⟩ = none ∧ env.OpenFile w.pm.GlobalProtoPath = none ∧
        env.WriteString (serviceDefinition s) = none)) := by
  cases hreg : env.RegisterService s ⟨d, v⟩ with
  | some e =>
    obtain ⟨-, h2, -, -⟩ := RegisterMicroservice_registry_fails env w s d v e hreg
    rw [h2]
    simp
  | none =>
    cases hopen : env.OpenFile w.pm.GlobalProtoPath with
    | some e =>
      obtain ⟨-, h2, -, -⟩ := RegisterMicroservice_open_fails env w s d v e hreg hopen
      rw [h2]
      simp
    | none =>
      cases hwrite : env.WriteString (serviceDefinition s) with
      | some ne =>
        obtain ⟨n, e⟩ := ne
        obtain ⟨-, h2, -, -⟩ :=
          RegisterMicroservice_write_fails env w s d v e n hreg hopen hwrite
        rw [h2]
        simp
      | none =>
        cases hgen : env.CombinedOutput (protocCommand w.pm) with
        | mk out err =>
          cases err with
          | some e =>
            obtain ⟨-, h2, h3, -⟩ :=
              RegisterMicroservice_codegen_fails env w s d v e out hreg hopen hwrite hgen
            rw [h2, h3]
            simp
          | none =>
            obtain ⟨-, h2, h3, -⟩ :=
              RegisterMicroservice_all_succeed env w s d v out hreg hopen hwrite hgen
            rw [h2, h3]
            simp

/-- C10 (amended), for a write that fails after 9 characters: `ServiceRegistered`
was emitted, `GlobalProtoUpdated` was not. -/
theorem C10_RegisterMicroservice_events_and_append_witness :
    (∃ ev ∈ eventsSince (NewProtoManager Nat "global.proto" "protos" "out" "")
        (RegisterMicroservice
          (Env.fixed none none (some (9, "no space left on device")) ("", none))
          (NewProtoManager Nat "global.proto" "protos" "out" "")
          "Billing" "payments" "v1").1,
      ev.Type_ = "ServiceRegistered") ∧
    ¬ (∃ ev ∈ eventsSince (NewProtoManager Nat "global.proto" "protos" "out" "")
        (RegisterMicroservice
          (Env.fixed none none (some (9, "no space left on device")) ("", none))
          (NewProtoManager Nat "global.proto" "protos" "out" "")
          "Billing" "payments" "v1").1,
      ev.Type_ = "GlobalProtoUpdated") := by
  have h := C10_RegisterMicroservice_events_and_append
    (Env.fixed none none (some (9, "no space left on device")) ("", none))
    (NewProtoManager Nat "global.proto" "protos" "out" "") "Billing" "payments" "v1"
  refine ⟨h.1.2 rfl, fun hex => ?_⟩
  have h3 := (h.2.2.1 hex).2.2
  cases h3

end Proto

namespace Proto

/-- C11: for every service name, domain and version, if the registry call, the
append to the global definition file and the code-generation process all
succeed, `RegisterMicroservice` returns nil, the events of the call are, in
emission order, exactly `"ServiceRegistered"`, `"GlobalProtoUpdated"`,
`"CodeGenerated"`, and the `"CodeGenerated"` event is the last one. -/
theorem C11_RegisterMicroservice_success_events {L : Type} (env : Env) (w : World L)
    (s d v out : String)
    (hreg : env.RegisterService s ⟨d, v⟩ = none)
    (hopen : env.OpenFile w.pm.GlobalProtoPath = none)
    (hwrite : env.WriteString (serviceDefinition s) = none)
    (hgen : env.CombinedOutput (protocCommand w.pm) = (out, none)) :
    (RegisterMicroservice env w s d v).2 = none ∧
    (eventsSince w (RegisterMicroservice env w s d v).1).map Event.Type_ =
      ["ServiceRegistered", "GlobalProtoUpdated", "CodeGenerated"] ∧
    (eventsSince w (RegisterMicroservice env w s d v).1).getLast? =
      some ⟨"CodeGenerated", "Code regenerated successfully"⟩ ∧
    eventsSince w (RegisterMicroservice env w s d v).1 =
      [⟨"ServiceRegistered", "Service '" ++ s ++ "' registered"⟩,
       ⟨"GlobalProtoUpdated", "Global proto updated for service '" ++ s ++ "'"⟩,
       ⟨"CodeGenerated", "Code regenerated successfully"⟩] := by
  obtain ⟨h1, h2, -, -⟩ :=
    RegisterMicroservice_all_succeed env w s d v out hreg hopen hwrite hgen
  refine ⟨h1, ?_, ?_, h2⟩
  · rw [h2]; rfl
  · rw [h2]; rfl

/-- C11, for the service `Billing` with collaborators that all succeed and a
manager that already has one listener. -/
theorem C11_RegisterMicroservice_success_events_witness :
    (RegisterMicroservice (Env.fixed none none none ("ok", none))
        (AddEventListener (NewProtoManager Nat "global.proto" "protos" "out" "") 7)
        "Billing" "payments" "v1").2 = none ∧
    (eventsSince (AddEventListener (NewProtoManager Nat "global.proto" "protos" "out" "") 7)
        (RegisterMicroservice (Env.fixed none none none ("ok", none))
          (AddEventListener (NewProtoManager Nat "global.proto" "protos" "out" "") 7)
          "Billing" "payments" "v1").1).map Event.Type_ =
      ["ServiceRegistered", "GlobalProtoUpdated", "CodeGenerated"] := by
  have h := C11_RegisterMicroservice_success_events (Env.fixed none none none ("ok", none))
    (AddEventListener (NewProtoManager Nat "global.proto" "protos" "out" "") 7)
    "Billing" "payments" "v1" "ok" rfl rfl rfl rfl
  exact ⟨h.1, h.2.1⟩

/-- C12: if `ProtoRegistry.RegisterService` returns an error `e`, then
`RegisterMicroservice` returns `e`, leaves the global definition file unchanged,
runs no command (the code-generation process is not invoked) and emits exactly
one event, of type `"Error"`; no `"ServiceRegistered"`, `"GlobalProtoUpdated"`
or `"CodeGenerated"` event is emitted. -/
theorem C12_RegisterMicroservice_registry_error {L : Type} (env : Env) (w : World L)
    (s d v e : String) (hreg : env.RegisterService s ⟨d, v⟩ = some e) :
    (RegisterMicroservice env w s d v).2 = some e ∧
    (RegisterMicroservice env w s d v).1.globalProto = w.globalProto ∧
    (RegisterMicroservice env w s d v).1.commands = w.commands ∧
    (eventsSince w (RegisterMicroservice env w s d v).1).map Event.Type_ = ["Error"] ∧
    (∀ ev ∈ eventsSince w (RegisterMicroservice env w s d v).1,
      ev.Type_ ≠ "ServiceRegistered" ∧ ev.Type_ ≠ "GlobalProtoUpdated" ∧
      ev.Type_ ≠ "CodeGenerated") := by
  obtain ⟨h1, h2, h3, h4⟩ := RegisterMicroservice_registry_fails env w s d v e hreg
  refine ⟨h1, h3, h4, ?_, ?_⟩
  · rw [h2]; rfl
  · rw [h2]
    intro ev hev
    rw [List.mem_singleton] at hev
    subst hev
    exact ⟨(by decide : ¬ ("Error" : String) = "ServiceRegistered"),
      (by decide : ¬ ("Error" : String) = "GlobalProtoUpdated"),
      (by decide : ¬ ("Error" : String) = "CodeGenerated")⟩

/-- C12, for a registry that answers `"already registered"` while every other
collaborator would succeed: the file keeps its content and no command is run. -/
theorem C12_RegisterMicroservice_registry_error_witness :
    (RegisterMicroservice (Env.fixed (some "already registered") none none ("ok", none))
        (NewProtoManager Nat "global.proto" "protos" "out" "syntax = \"proto3\";\n")
        "Billing" "payments" "v1").2 = some "already registered" ∧
    (RegisterMicroservice (Env.fixed (some "already registered") none none ("ok", none))
        (NewProtoManager Nat "global.proto" "protos" "out" "syntax = \"proto3\";\n")
        "Billing" "payments" "v1").1.globalProto = "syntax = \"proto3\";\n" ∧
    (RegisterMicroservice (Env.fixed (some "already registered") none none ("ok", none))
        (NewProtoManager Nat "global.proto" "protos" "out" "syntax = \"proto3\";\n")
        "Billing" "payments" "v1").1.commands = [] := by
  have h := C12_RegisterMicroservice_registry_error
    (Env.fixed (some "already registered") none none ("ok", none))
    (NewProtoManager Nat "global.proto" "protos" "out" "syntax = \"proto3\";\n")
    "Billing" "payments" "v1" "already registered" rfl
  exact ⟨h.1, h.2.1, h.2.2.1⟩

end Proto

namespace Cluster

/-- Under a complete schedule every goroutine finds its task: the calls of
`Execute()` are the schedule itself. -/
theorem executions_complete {T : Type} (tasks : List (Task T)) (sched : List Nat)
    (hs : Schedule tasks.length sched) : executions tasks sched = sched := by
  unfold executions
  apply List.filter_eq_self.2
  intro i hi
  have hlt : i < tasks.length := List.mem_range.1 ((List.Perm.mem_iff hs).1 hi)
  simp [List.getElem?_eq_getElem hlt]

/-- C13: `RunTasks` leaves the pending task sequence of the manager unchanged.
For every sequence `ts` of deterministic tasks and all completion orders, after a
first `RunTasks` the manager still holds `ts`; a second `RunTasks` executes every
task once again and returns the same results and the same aggregated error as
the first; and after the further `AddTask` calls of `extra` the next `RunTasks`
returns a result sequence of length `ts.length + extra.length`. -/
theorem C13_RunTasks_keeps_pending_tasks {T : Type} (zero : T)
    (ts extra : List (Task T)) (s1 s2 s3 : List Nat)
    (h1 : Schedule ts.length s1) (h2 : Schedule ts.length s2)
    (h3 : Schedule (ts.length + extra.length) s3) :
    ((submit ts).RunTasksStep zero s1).1.tasks = ts ∧
    (((submit ts).RunTasksStep zero s1).1.RunTasksStep zero s2).2 =
      ((submit ts).RunTasksStep zero s1).2 ∧
    (executions ((submit ts).RunTasksStep zero s1).1.tasks s2).Perm
      (List.range ts.length) ∧
    ((extra.foldl ClusterManager.AddTask
        ((submit ts).RunTasksStep zero s1).1).RunTasksStep zero s3).2.1.length
      = ts.length + extra.length ∧
    ((extra.foldl ClusterManager.AddTask
        ((submit ts).RunTasksStep zero s1).1).RunTasksStep zero s3).2.1
      = (ts ++ extra).map Task.value := by
  have hs1 : Schedule (submit ts).tasks.length s1 := by rw [submit_tasks]; exact h1
  have hs2 : Schedule (submit ts).tasks.length s2 := by rw [submit_tasks]; exact h2
  have htasks : (extra.foldl ClusterManager.AddTask (submit ts)).tasks = ts ++ extra := by
    rw [foldl_AddTask_tasks, submit_tasks]
  have hs3 : Schedule (extra.foldl ClusterManager.AddTask (submit ts)).tasks.length s3 := by
    rw [htasks, List.length_append]; exact h3
  have hres : ((extra.foldl ClusterManager.AddTask (submit ts)).RunTasks zero s3).1
      = (ts ++ extra).map Task.value := by
    rw [RunTasks_eq zero _ s3 hs3, htasks]
    split <;> rfl
  refine ⟨submit_tasks ts, ?_, ?_, ?_, ?_⟩
  · show (submit ts).RunTasks zero s2 = (submit ts).RunTasks zero s1
    rw [RunTasks_eq zero (submit ts) s2 hs2, RunTasks_eq zero (submit ts) s1 hs1]
  · show (executions (submit ts).tasks s2).Perm (List.range ts.length)
    rw [executions_complete (submit ts).tasks s2 hs2]
    exact h2
  · show ((extra.foldl ClusterManager.AddTask (submit ts)).RunTasks zero s3).1.length = _
    rw [hres, List.length_map, List.length_append]
  · exact hres

/-- C13, on two tasks (the second failing) run in the orders 1, 0 and then 0, 1,
followed by one more `AddTask` and a run in the order 2, 0, 1. -/
theorem C13_RunTasks_keeps_pending_tasks_witness :
    Schedule 2 [1, 0] ∧ Schedule 2 [0, 1] ∧ Schedule (2 + 1) [2, 0, 1] ∧
    (((submit [⟨"a", none⟩, ⟨"", some "disk full"⟩]).RunTasksStep "" [1, 0]).1.RunTasksStep
        "" [0, 1]).2 = (["a", ""], some "errors occurred: disk full; ") ∧
    (([(⟨"c", none⟩ : Task String)].foldl ClusterManager.AddTask
        ((submit [⟨"a", none⟩, ⟨"", some "disk full"⟩]).RunTasksStep "" [1, 0]).1
      ).RunTasksStep "" [2, 0, 1]).2.1.length = 3 := by
  have h := C13_RunTasks_keeps_pending_tasks ""
    [⟨"a", none⟩, ⟨"", some "disk full"⟩] [⟨"c", none⟩] [1, 0] [0, 1] [2, 0, 1]
    (by decide) (by decide) (by decide)
  refine ⟨by decide, by decide, by decide, ?_, h.2.2.2.1⟩
  rw [h.2.1]
  decide

end Cluster
